import Mathlib

/-!
Shallow embedding of the minion_zoo classifier module.

The module defines an abstract `minion` base class and four concrete
classifier variants: `ExpertMinion`, `AllTheSingleLabelsMinion`,
`RandomMinion` and `NoisyMinion`.  Python integers are modelled by `ℤ`,
the floating-point probabilities of the confusion matrix and the value
drawn by `random.random()` by `ℚ`, and exceptions by `Except PyError`.
Stochastic methods take their random draw as an explicit argument:
`random.random()` becomes a rational `u` with `0 ≤ u < 1`, and
`random.choice(labels)` becomes a uniformly drawn index into `labels`.
-/

namespace MinionZoo

/-- The exception kinds raised by the module: `NotImplementedError`
from the abstract base method and `ValueError` from the confusion
matrix validation. -/
inductive PyError where
  | notImplementedError : PyError
  | valueError : String → PyError
deriving DecidableEq, Repr

/-- Base class `minion`: `__init__` stores `id` and `name`. -/
structure minion where
  id : ℤ
  name : String
deriving DecidableEq, Repr

/-- `minion.__init__(self, id, name)`: sets the two fields and performs
no other action, so construction is total and never raises. -/
def minion.init (id : ℤ) (name : String) : minion :=
  ⟨id, name⟩

/-- `minion.classify(self, subject_id)`: the body is a bare
`raise NotImplementedError`. -/
def minion.classify (_self : minion) (_subject_id : ℤ) :
    Except PyError (ℤ × ℤ) :=
  .error .notImplementedError

/-- `ExpertMinion`: adds no fields beyond the base class. -/
structure ExpertMinion where
  id : ℤ
  name : String
deriving DecidableEq, Repr

/-- `ExpertMinion.__init__(self, id, name)`: delegates to the base
constructor. -/
def ExpertMinion.init (id : ℤ) (name : String) : ExpertMinion :=
  ⟨id, name⟩

/-- `ExpertMinion.classify(self, subject_id, gold_label)`:
`return (subject_id, gold_label)`. -/
def ExpertMinion.classify (_self : ExpertMinion)
    (subject_id gold_label : ℤ) : ℤ × ℤ :=
  (subject_id, gold_label)

/-- State-passing form of `ExpertMinion.classify`: the body contains no
assignment to `self`, so the returned state is the incoming one. -/
def ExpertMinion.classifyS (self : ExpertMinion)
    (subject_id gold_label : ℤ) : ExpertMinion × (ℤ × ℤ) :=
  (self, (subject_id, gold_label))

/-- `AllTheSingleLabelsMinion`: stores the fixed `label` given at
construction. -/
structure AllTheSingleLabelsMinion where
  id : ℤ
  name : String
  label : ℤ
deriving DecidableEq, Repr

/-- `AllTheSingleLabelsMinion.__init__(self, id, name, label)`. -/
def AllTheSingleLabelsMinion.init (id : ℤ) (name : String) (label : ℤ) :
    AllTheSingleLabelsMinion :=
  ⟨id, name, label⟩

/-- `AllTheSingleLabelsMinion.classify(self, subject_id)`:
`return (subject_id, self.label)`. -/
def AllTheSingleLabelsMinion.classify (self : AllTheSingleLabelsMinion)
    (subject_id : ℤ) : ℤ × ℤ :=
  (subject_id, self.label)

/-- State-passing form of `AllTheSingleLabelsMinion.classify`: the body
contains no assignment to `self`. -/
def AllTheSingleLabelsMinion.classifyS (self : AllTheSingleLabelsMinion)
    (subject_id : ℤ) : AllTheSingleLabelsMinion × (ℤ × ℤ) :=
  (self, (subject_id, self.label))

/-- `RandomMinion`: stores the list of valid labels. -/
structure RandomMinion where
  id : ℤ
  name : String
  labels : List ℤ
deriving DecidableEq, Repr

/-- `RandomMinion.__init__(self, id, name, labels)`. -/
def RandomMinion.init (id : ℤ) (name : String) (labels : List ℤ) :
    RandomMinion :=
  ⟨id, name, labels⟩

/-- `RandomMinion.classify(self, subject_id)`:
`return (subject_id, random.choice(self.labels))`.  Python's
`random.choice` draws an index uniformly from
`range(len(self.labels))` and returns the element at that index; the
drawn index is the explicit argument `i`. -/
def RandomMinion.classify (self : RandomMinion) (subject_id : ℤ)
    (i : Fin self.labels.length) : ℤ × ℤ :=
  (subject_id, self.labels.get i)

/-- State-passing form of `RandomMinion.classify`: the body contains no
assignment to `self`. -/
def RandomMinion.classifyS (self : RandomMinion) (subject_id : ℤ)
    (i : Fin self.labels.length) : RandomMinion × (ℤ × ℤ) :=
  (self, (subject_id, self.labels.get i))

/-- `NoisyMinion`: stores the two-element confusion matrix. -/
structure NoisyMinion where
  id : ℤ
  name : String
  confusion_matrix : List ℚ
deriving DecidableEq, Repr

/-- `NoisyMinion.__init__(self, id, name, confusion_matrix)`.  The
validation in the source is
`if (confusion_matrix < 0).any() and (confusion_matrix > 1).any():`
— elementwise comparisons combined with `and` — so `ValueError` is
raised exactly when some element is below 0 AND some element is above 1;
otherwise the matrix is stored unchanged.  The message string is the
source's two concatenated literals (no space between them). -/
def NoisyMinion.init (id : ℤ) (name : String)
    (confusion_matrix : List ℚ) : Except PyError NoisyMinion :=
  if (confusion_matrix.any fun p => decide (p < 0)) &&
      (confusion_matrix.any fun p => decide (p > 1)) then
    .error (.valueError
      "All confusion matrix elements must be in theinterval [0,1].")
  else
    .ok ⟨id, name, confusion_matrix⟩

/-- `NoisyMinion.classify(self, subject_id, gold_label)`: the argument
`u` is the value of `random.random()`, uniform in `[0,1)`.  The source is
`if random.random() < self.confusion_matrix[gold_label]:` then
`return (subject_id, gold_label)` else
`return (subject_id, gold_label == 0)`.  The flip branch returns the
Python boolean `gold_label == 0`, whose integer value is 1 when
`gold_label = 0` and 0 otherwise. -/
def NoisyMinion.classify (self : NoisyMinion)
    (subject_id gold_label : ℤ) (u : ℚ) : ℤ × ℤ :=
  if u < self.confusion_matrix.getD gold_label.toNat 0 then
    (subject_id, gold_label)
  else
    (subject_id, if gold_label = 0 then 1 else 0)

/-- State-passing form of `NoisyMinion.classify`: the body contains no
assignment to `self`. -/
def NoisyMinion.classifyS (self : NoisyMinion)
    (subject_id gold_label : ℤ) (u : ℚ) : NoisyMinion × (ℤ × ℤ) :=
  if u < self.confusion_matrix.getD gold_label.toNat 0 then
    (self, (subject_id, gold_label))
  else
    (self, (subject_id, if gold_label = 0 then 1 else 0))

/-- Claim C4: for every `ExpertMinion` and all `subject_id` and
`gold_label`, `classify` returns exactly `(subject_id, gold_label)`;
in particular the instance constructed as `ExpertMinion(1, "e")`
satisfies `classify(7, 1) = (7, 1)`. -/
theorem expert_classify_identity :
    (∀ (m : ExpertMinion) (subject_id gold_label : ℤ),
      m.classify subject_id gold_label = (subject_id, gold_label)) ∧
    (ExpertMinion.init 1 "e").classify 7 1 = (7, 1) :=
  ⟨fun _ _ _ => rfl, rfl⟩

/-- Claim C5: every `AllTheSingleLabelsMinion` returns
`(subject_id, label)` with its fixed construction-time label, for every
subject; the second component never depends on the subject. -/
theorem single_label_classify_constant :
    ∀ (m : AllTheSingleLabelsMinion) (subject_id : ℤ),
      m.classify subject_id = (subject_id, m.label) :=
  fun _ _ => rfl

/-- Claim C7: calling `classify` on the abstract base class always
raises `NotImplementedError`, for every subject, while constructing the
base class itself succeeds (the constructor is total and just stores
the two fields). -/
theorem base_classify_raises :
    (∀ (m : minion) (subject_id : ℤ),
      m.classify subject_id = Except.error PyError.notImplementedError) ∧
    (∀ (i : ℤ) (nm : String), minion.init i nm = ⟨i, nm⟩) :=
  ⟨fun _ _ => rfl, fun _ _ => rfl⟩

/-- Claim C8: the Expert and Constant-Label variants are deterministic
and idempotent: running `classify` twice in sequence (threading the
object state through) yields the same result both times, and the state
after the two calls is the original object. -/
theorem expert_constant_idempotent :
    (∀ (m : ExpertMinion) (subject_id gold_label : ℤ),
      ((m.classifyS subject_id gold_label).1.classifyS
          subject_id gold_label).2 =
        (m.classifyS subject_id gold_label).2 ∧
      ((m.classifyS subject_id gold_label).1.classifyS
          subject_id gold_label).1 = m) ∧
    (∀ (m : AllTheSingleLabelsMinion) (subject_id : ℤ),
      ((m.classifyS subject_id).1.classifyS subject_id).2 =
        (m.classifyS subject_id).2 ∧
      ((m.classifyS subject_id).1.classifyS subject_id).1 = m) :=
  ⟨fun _ _ _ => ⟨rfl, rfl⟩, fun _ _ => ⟨rfl, rfl⟩⟩

/-- Claim C9: every `classify` operation of every variant leaves the
object's state — `id`, `name` and the variant-specific construction
parameters — unchanged: the state returned by the state-passing form is
the incoming object. -/
theorem classify_state_frame :
    (∀ (m : ExpertMinion) (s g : ℤ), (m.classifyS s g).1 = m) ∧
    (∀ (m : AllTheSingleLabelsMinion) (s : ℤ), (m.classifyS s).1 = m) ∧
    (∀ (m : RandomMinion) (s : ℤ) (i : Fin m.labels.length),
      (m.classifyS s i).1 = m) ∧
    (∀ (m : NoisyMinion) (s g : ℤ) (u : ℚ), (m.classifyS s g u).1 = m) := by
  refine ⟨fun _ _ _ => rfl, fun _ _ => rfl, fun _ _ _ => rfl,
    fun m s g u => ?_⟩
  unfold NoisyMinion.classifyS
  split <;> rfl

/-- Claim C1 (code evaluation at the failing input): constructing a
`NoisyMinion` with `confusion_matrix = [1.5, 0.2]` does NOT raise: the
validation combines the below-0 and above-1 elementwise tests with
`and`, no element of `[1.5, 0.2]` is below 0, so the check passes and
the out-of-range matrix is stored.  This contradicts the constructor's
own docstring, which requires every element to lie in `[0,1]`. -/
theorem noisy_init_accepts_out_of_range :
    NoisyMinion.init 0 "n" [3/2, 1/5] =
      Except.ok ⟨0, "n", [3/2, 1/5]⟩ := by
  norm_num [NoisyMinion.init]

/-- Claim C2: for a `NoisyMinion` whose confusion matrix is `[p0, p1]`
with both entries in `[0,1]`, a binary gold label, and a uniform draw
`u ∈ [0,1)`: `classify` returns `(subject_id, gold_label)` when
`u < confusion_matrix[gold_label]`, and otherwise returns the flipped
label `1 - gold_label` (the other member of `{0,1}`). -/
theorem noisy_classify_channel (m : NoisyMinion) (p0 p1 : ℚ)
    (hm : m.confusion_matrix = [p0, p1])
    (hp0 : 0 ≤ p0 ∧ p0 ≤ 1) (hp1 : 0 ≤ p1 ∧ p1 ≤ 1)
    (subject_id gold_label : ℤ)
    (hg : gold_label = 0 ∨ gold_label = 1)
    (u : ℚ) (hu : 0 ≤ u ∧ u < 1) :
    m.classify subject_id gold_label u =
      if u < (if gold_label = 0 then p0 else p1) then
        (subject_id, gold_label)
      else
        (subject_id, 1 - gold_label) := by
  rcases hg with h | h <;> subst h <;>
    simp [NoisyMinion.classify, hm, List.getD]

/-- Witness for C2 at `confusion_matrix = [1/2, 1/3]`, `gold_label = 0`,
`u = 1/4`. -/
theorem noisy_classify_channel_witness :
    (⟨0, "n", [(1:ℚ)/2, (1:ℚ)/3]⟩ : NoisyMinion).classify 5 0 (1/4) =
      if (1/4 : ℚ) < (if (0:ℤ) = 0 then (1/2 : ℚ) else 1/3) then
        ((5 : ℤ), (0 : ℤ))
      else (5, 1 - 0) :=
  noisy_classify_channel ⟨0, "n", [1/2, 1/3]⟩ (1/2) (1/3) rfl
    ⟨by norm_num, by norm_num⟩ ⟨by norm_num, by norm_num⟩ 5 0
    (Or.inl rfl) (1/4) ⟨by norm_num, by norm_num⟩

/-- Claim C3: a `NoisyMinion` with `confusion_matrix = [1, 1]` behaves
identically to the Expert labeler: for every subject, every binary gold
label and every uniform draw `u ∈ [0,1)`, it returns exactly
`(subject_id, gold_label)`, which is what `ExpertMinion.classify`
returns. -/
theorem noisy_ones_equals_expert (m : NoisyMinion)
    (hm : m.confusion_matrix = [1, 1]) (e : ExpertMinion)
    (subject_id gold_label : ℤ)
    (hg : gold_label = 0 ∨ gold_label = 1)
    (u : ℚ) (hu0 : 0 ≤ u) (hu1 : u < 1) :
    m.classify subject_id gold_label u = (subject_id, gold_label) ∧
    m.classify subject_id gold_label u =
      e.classify subject_id gold_label := by
  have hmain : m.classify subject_id gold_label u =
      (subject_id, gold_label) := by
    rcases hg with h | h <;> subst h <;>
      simp [NoisyMinion.classify, hm, List.getD, hu1]
  exact ⟨hmain, hmain.trans rfl⟩

/-- Witness for C3 at `u = 9/10`, `gold_label = 1`. -/
theorem noisy_ones_equals_expert_witness :
    (⟨0, "n", [(1:ℚ), 1]⟩ : NoisyMinion).classify 3 1 (9/10) =
        ((3 : ℤ), (1 : ℤ)) ∧
    (⟨0, "n", [(1:ℚ), 1]⟩ : NoisyMinion).classify 3 1 (9/10) =
      (⟨1, "e"⟩ : ExpertMinion).classify 3 1 :=
  noisy_ones_equals_expert ⟨0, "n", [1, 1]⟩ rfl ⟨1, "e"⟩ 3 1
    (Or.inr rfl) (9/10) (by norm_num) (by norm_num)

/-- Claim C6: for a `RandomMinion` with non-empty `labels`, every
possible draw returns a pair whose first component is the given
`subject_id` and whose second component is a member of `labels`; and
the draw is uniform: listing the outcome of `classify` over all
equiprobable index draws yields exactly `labels`, each element paired
once with `subject_id`, so each position of `labels` is selected with
probability `1 / labels.length`. -/
theorem random_classify_uniform_member (m : RandomMinion)
    (h : m.labels ≠ []) (subject_id : ℤ) :
    (∀ i : Fin m.labels.length,
      (m.classify subject_id i).1 = subject_id ∧
      (m.classify subject_id i).2 ∈ m.labels) ∧
    (List.finRange m.labels.length).map (fun i => m.classify subject_id i)
      = m.labels.map (fun l => (subject_id, l)) := by
  constructor
  · intro i
    exact ⟨rfl, m.labels.get_mem i.1 i.2⟩
  · conv_rhs => rw [← List.finRange_map_get m.labels]
    rw [List.map_map]
    rfl

/-- Witness for C6 at `labels = [0, 1]` with the draw of index 1. -/
theorem random_classify_uniform_member_witness :
    ((⟨4, "r", [0, 1]⟩ : RandomMinion).classify 1
        ⟨1, by decide⟩).1 = 1 ∧
    ((⟨4, "r", [0, 1]⟩ : RandomMinion).classify 1
        ⟨1, by decide⟩).2 ∈ [(0 : ℤ), 1] :=
  (random_classify_uniform_member ⟨4, "r", [0, 1]⟩ (by decide) 1).1
    ⟨1, by decide⟩

/-- Claim C10: the `NoisyMinion` constructor raises `ValueError` if and
only if the supplied matrix has both some element strictly below 0 and
some element strictly above 1; whenever it does not raise, the matrix
is stored unchanged together with the given id and name (and on the
error path no object is produced, so `confusion_matrix` is never set).
Concretely, `[1.5, 0.2]` and `[-0.5, 0.5]` are accepted while
`[-0.5, 1.5]` is rejected. -/
theorem noisy_init_error_iff (i : ℤ) (nm : String) (cm : List ℚ) :
    ((∃ e, NoisyMinion.init i nm cm = Except.error e) ↔
      (∃ p ∈ cm, p < 0) ∧ (∃ p ∈ cm, 1 < p)) ∧
    (∀ m, NoisyMinion.init i nm cm = Except.ok m → m = ⟨i, nm, cm⟩) ∧
    NoisyMinion.init 2 "x" [-1/2, 1/2] =
      Except.ok ⟨2, "x", [-1/2, 1/2]⟩ ∧
    (∃ e, NoisyMinion.init 2 "x" [-1/2, 3/2] = Except.error e) := by
  refine ⟨?_, ?_, by norm_num [NoisyMinion.init],
    ⟨.valueError
      "All confusion matrix elements must be in theinterval [0,1].",
      by norm_num [NoisyMinion.init]⟩⟩
  · by_cases hc : ((cm.any fun p => decide (p < 0)) &&
        (cm.any fun p => decide (p > 1))) = true
    · have hprop : (∃ p ∈ cm, p < 0) ∧ (∃ p ∈ cm, 1 < p) := by
        simpa [List.any_eq_true] using hc
      simp only [NoisyMinion.init, hc, if_true]
      exact ⟨fun _ => hprop, fun _ => ⟨_, rfl⟩⟩
    · have hprop : ¬ ((∃ p ∈ cm, p < 0) ∧ (∃ p ∈ cm, 1 < p)) := by
        simpa [List.any_eq_true] using hc
      simp only [NoisyMinion.init, hc, if_false]
      exact ⟨fun ⟨e, he⟩ => absurd he (by simp), fun hp => absurd hp hprop⟩
  · intro m hm
    unfold NoisyMinion.init at hm
    split at hm
    · exact Except.noConfusion hm
    · exact (Except.ok.inj hm).symm

end MinionZoo
